import Mathlib

/-!
# Verification of the deploy orchestrator (`src/script/deploy.ts`)

A shallow embedding of the deploy script.  The script is a single linear
procedure that talks to the outside world through: one environment variable
(`AWS_PROFILE`), four subprocess invocations (`command -v aws`,
`aws --version`, `aws s3 ls`, `npm run build`, `aws s3 sync`), one terminal
prompt (inquirer confirm), one remote API call (CloudFront
`createInvalidation`), and the wall clock (`new Date()`).

We model one run of the process as a pure function of an `Env` record that
fixes the outcome of every external interaction, and we return, next to the
`Except` result, the trace of externally visible events (subprocess
invocations, the prompt, the submitted invalidation request, the
state-machine step boundaries that the script logs at each step, and the
error printed by the top-level catch handler).
-/

namespace Deploy

/-- Constant from deploy.ts line 9. -/
def CLOUDFRONT_ID : String := "E9UOY3VP89NXH"

/-- Constant from deploy.ts line 10. -/
def BUCKET_NAME : String := "www.ivantanev.com"

/-- Constant from deploy.ts line 11: `` `s3://${BUCKET_NAME}` ``. -/
def BUCKET : String := "s3://" ++ BUCKET_NAME

/-- The `Paths` member of a CloudFront invalidation batch
(`AWS.CloudFront.Types.Paths`). -/
structure InvalidationPaths where
  Quantity : Nat
  Items : List String
deriving DecidableEq, Repr

/-- The `InvalidationBatch` member of a CloudFront invalidation request. -/
structure InvalidationBatch where
  CallerReference : String
  Paths : InvalidationPaths
deriving DecidableEq, Repr

/-- `AWS.CloudFront.Types.CreateInvalidationRequest`, as built at
deploy.ts lines 131-140. -/
structure CreateInvalidationRequest where
  DistributionId : String
  InvalidationBatch : InvalidationBatch
deriving DecidableEq, Repr

/-- The distinct failure sites of the script, named after the spec's error
taxonomy.  Each constructor corresponds to exactly one throw/reject site in
deploy.ts. -/
inductive DeployError where
  /-- deploy.ts line 33: `AWS_PROFILE` unset (or empty, hence falsy). -/
  | configurationError
  /-- deploy.ts line 161: `command -v aws` failed, the tool is not
  invokable (`Command "aws" is not available`). -/
  | toolMissing
  /-- deploy.ts lines 48-51: the `aws --version` subprocess itself
  rejected; the raw execa error propagates. -/
  | versionProbeFailed
  /-- deploy.ts lines 52-57: the invariant rejects a version string not
  matching `/^aws-cli\/1/`.  Carries the offending stdout. -/
  | incompatibleVersion (stdout : String)
  /-- deploy.ts line 66: `No AWS acccess`. -/
  | accessError
  /-- deploy.ts line 91: the `npm run build` subprocess rejected. -/
  | buildError
  /-- deploy.ts line 103: the `aws s3 sync` subprocess rejected. -/
  | syncError
  /-- deploy.ts line 142: the `createInvalidation` API call rejected. -/
  | invalidationError
deriving DecidableEq, Repr

/-- The states of the spec's state machine
(`Idle → Validating → Confirming → Building → Syncing → Invalidating → Done`),
whose boundaries the script marks with console messages. -/
inductive Step where
  | validating
  | confirming
  | building
  | syncing
  | invalidating
  | done
deriving DecidableEq, Repr

/-- Externally visible events of one run. -/
inductive Event where
  /-- A state-machine step boundary was reached. -/
  | step (s : Step)
  /-- A subprocess was spawned with this argv (via execa). -/
  | exec (argv : List String)
  /-- The inquirer confirmation prompt was shown. -/
  | prompted
  /-- A `createInvalidation` request was submitted to CloudFront. -/
  | invalidationSubmitted (req : CreateInvalidationRequest)
  /-- The top-level catch handler printed this error to the console. -/
  | printedError (e : DeployError)
deriving DecidableEq, Repr

/-- The outcomes of every external interaction of one run.  The script is a
pure function of this record. -/
structure Env where
  /-- `process.env.AWS_PROFILE`: absent (`none`) or present with a value. -/
  AWS_PROFILE : Option String
  /-- Whether `command -v aws` exits 0 (the tool is invokable). -/
  awsCommandExists : Bool
  /-- Outcome of `aws --version`: `none` if the subprocess rejects,
  otherwise its captured stdout. -/
  awsVersionResult : Option String
  /-- Whether `aws s3 ls s3://www.ivantanev.com` exits 0. -/
  s3LsSucceeds : Bool
  /-- The answer the human gives to the confirmation prompt. -/
  confirmAnswer : Bool
  /-- Whether `npm run build` exits 0. -/
  buildSucceeds : Bool
  /-- Whether `aws s3 sync public/ s3://…` exits 0. -/
  syncSucceeds : Bool
  /-- Whether the CloudFront `createInvalidation` call succeeds. -/
  cfCallSucceeds : Bool
  /-- Wall-clock time, in milliseconds since the Unix epoch, read by
  `new Date()` at the invalidation step. -/
  timeMs : Nat
deriving DecidableEq, Repr

deriving instance DecidableEq for Except

/-- One step outcome: the events it emitted and its result. -/
abbrev Outcome := List Event × Except DeployError Unit

/-- Sequencing of two awaited steps: on rejection of the first, the second
never runs (its events never happen); otherwise events accumulate. -/
def seqE (a : Outcome) (b : Unit → Outcome) : Outcome :=
  match a with
  | (evs, Except.error e) => (evs, Except.error e)
  | (evs, Except.ok _) => ((b ()).1 |> (evs ++ ·), (b ()).2)

/-- JavaScript truthiness of `process.env.X : string | undefined`:
`undefined` and the empty string are falsy. -/
def envVarTruthy : Option String → Bool
  | none => false
  | some s => s ≠ ""

/-- The version acceptance test `/^aws-cli\/1/.test s` (deploy.ts line 44):
the anchored regex holds exactly when `s` starts with `"aws-cli/1"`. -/
def AWS_ALLOWED_VERSION_test (s : String) : Bool :=
  "aws-cli/1".data.isPrefixOf s.data

/-- deploy.ts lines 157-163: `util_commandExists` spawns
`command -v <command>` through a shell and converts its rejection into
`Command "<command>" is not available`. -/
def util_commandExists (env : Env) (command : String) : Outcome :=
  ([Event.exec ["command", "-v", command]],
   if env.awsCommandExists then Except.ok () else Except.error DeployError.toolMissing)

/-- deploy.ts lines 148-155: `util_canAccessAWSBucket` spawns
`aws s3 ls s3://www.ivantanev.com` and catches any failure, returning a
boolean instead of propagating the error. -/
def util_canAccessAWSBucket (env : Env) : List Event × Bool :=
  ([Event.exec ["aws", "s3", "ls", BUCKET]], env.s3LsSucceeds)

/-- deploy.ts lines 43-58: `prerequisiteAWS` checks the tool is invokable,
then runs `aws --version` and requires stdout to match `/^aws-cli\/1/`. -/
def prerequisiteAWS (env : Env) : Outcome :=
  seqE (util_commandExists env "aws") fun _ =>
    (([Event.exec ["aws", "--version"]]),
     match env.awsVersionResult with
     | none => Except.error DeployError.versionProbeFailed
     | some stdout =>
       if AWS_ALLOWED_VERSION_test stdout then Except.ok ()
       else Except.error (DeployError.incompatibleVersion stdout))

/-- deploy.ts lines 60-68: `ensureS3Access` turns a `false` probe result
into the `No AWS acccess` error. -/
def ensureS3Access (env : Env) : Outcome :=
  match util_canAccessAWSBucket env with
  | (evs, true) => (evs, Except.ok ())
  | (evs, false) => (evs, Except.error DeployError.accessError)

/-- deploy.ts lines 31-69: `prerequsites` (sic) rejects a falsy
`AWS_PROFILE`, then runs the tooling check and the access probe in order. -/
def prerequsites (env : Env) : Outcome :=
  if envVarTruthy env.AWS_PROFILE then
    seqE (prerequisiteAWS env) fun _ => ensureS3Access env
  else
    ([], Except.error DeployError.configurationError)

/-- deploy.ts lines 71-83: `confirmDeploy` shows the confirm prompt and
awaits it, but never reads the resolved answer; the promise resolving lets
the workflow continue regardless of the response. -/
def confirmDeploy (_env : Env) : Outcome :=
  ([Event.prompted], Except.ok ())

/-- deploy.ts lines 85-93: `build` spawns `npm run build` (streaming its
output) and awaits it; a non-zero exit rejects. -/
def build (env : Env) : Outcome :=
  ([Event.exec ["npm", "run", "build"]],
   if env.buildSucceeds then Except.ok () else Except.error DeployError.buildError)

/-- deploy.ts lines 95-105: `syncS3bucket` spawns
`aws s3 sync public/ s3://www.ivantanev.com` and awaits it. -/
def syncS3bucket (env : Env) : Outcome :=
  ([Event.exec ["aws", "s3", "sync", "public/", BUCKET]],
   if env.syncSucceeds then Except.ok () else Except.error DeployError.syncError)

/-! ### `new Date().toISOString()`

deploy.ts line 134 sets the caller reference to `new Date().toISOString()`.
`Date` holds the wall-clock time as milliseconds since the Unix epoch and
`toISOString` renders it as `YYYY-MM-DDTHH:mm:ss.sssZ` (with an expanded
`+YYYYYY` year beyond 9999).  We embed the conversion as ECMA-262 defines
it: `YearFromTime` is the largest year whose first instant is not after the
time value, rendered here as iterated subtraction of `DaysInYear`, and the
month is found the same way from the month lengths. -/

/-- ECMA-262 leap-year predicate (`DaysInYear(y) = 366`). -/
def isLeapYear (y : Nat) : Bool :=
  y % 4 == 0 && (y % 100 != 0 || y % 400 == 0)

/-- ECMA-262 `DaysInYear`. -/
def daysInYear (y : Nat) : Nat := if isLeapYear y then 366 else 365

/-- The month lengths of year `y`, January first. -/
def monthLengths (y : Nat) : List Nat :=
  [31, if isLeapYear y then 29 else 28, 31, 30, 31, 30, 31, 31, 30, 31, 30, 31]

/-- ECMA-262 `YearFromTime` and `DayWithinYear`: starting from year `y`,
peel whole years off the day count `n`.  The fuel only bounds the search;
`n < 365 * fuel` always lets it terminate on its own. -/
def yearFrom : Nat → Nat → Nat → Nat × Nat
  | 0, y, n => (y, n)
  | fuel + 1, y, n =>
    if n < daysInYear y then (y, n)
    else yearFrom fuel (y + 1) (n - daysInYear y)

/-- ECMA-262 `MonthFromTime` and `DateFromTime`: peel whole months off the
day-of-year.  Returns the 0-based month index and 0-based day index. -/
def monthFrom : List Nat → Nat → Nat × Nat
  | [], n => (0, n)
  | len :: rest, n =>
    if n < len then (0, n)
    else ((monthFrom rest (n - len)).1 + 1, (monthFrom rest (n - len)).2)

/-- The decimal digit character for `n < 10`. -/
def digitChar (n : Nat) : Char := Char.ofNat (48 + n)

/-- Fixed-width zero-padded decimal rendering, most significant digit
first. -/
def padNum : Nat → Nat → List Char
  | 0, _ => []
  | w + 1, n => padNum w (n / 10) ++ [digitChar (n % 10)]

/-- The year field of the ISO string: four digits up to 9999, and the
expanded `+YYYYYY` form ECMA-262 uses beyond that. -/
def padYear (y : Nat) : List Char :=
  if y < 10000 then padNum 4 y else '+' :: padNum 6 y

/-- The character content of `toISOString` for a time value of `t`
milliseconds since the Unix epoch. -/
def isoChars (t : Nat) : List Char :=
  let ms := t % 1000
  let ss := t / 1000 % 60
  let mm := t / 60000 % 60
  let hh := t / 3600000 % 24
  let days := t / 86400000
  let yd := yearFrom (days / 365 + 1) 1970 days
  let md := monthFrom (monthLengths yd.1) yd.2
  padYear yd.1 ++ '-' :: padNum 2 (md.1 + 1) ++ '-' :: padNum 2 (md.2 + 1) ++
    'T' :: padNum 2 hh ++ ':' :: padNum 2 mm ++ ':' :: padNum 2 ss ++
    '.' :: padNum 3 ms ++ ['Z']

/-- `Date.prototype.toISOString` on a time value of `t` milliseconds since
the Unix epoch. -/
def toISOString (t : Nat) : String := String.mk (isoChars t)

example : toISOString 0 = "1970-01-01T00:00:00.000Z" := by decide
example : toISOString 1700000000000 = "2023-11-14T22:13:20.000Z" := by decide
example : toISOString 951782400000 = "2000-02-29T00:00:00.000Z" := by decide
example : toISOString 951868800000 = "2000-03-01T00:00:00.000Z" := by decide

/-- The `invalidation` request value built at deploy.ts lines 131-140:
`CallerReference = new Date().toISOString()`, `Quantity = paths.length`,
`Items = paths`. -/
def builtInvalidation (env : Env) (DistributionId : String)
    (paths : List String) : CreateInvalidationRequest :=
  { DistributionId := DistributionId
    InvalidationBatch :=
      { CallerReference := toISOString env.timeMs
        Paths := { Quantity := paths.length, Items := paths } } }

/-- deploy.ts lines 127-143: `invalidateDistributionPaths` builds the
`CreateInvalidationRequest` and submits it via `CF.createInvalidation`. -/
def invalidateDistributionPaths (env : Env) (DistributionId : String)
    (paths : List String) : Outcome :=
  ([Event.invalidationSubmitted (builtInvalidation env DistributionId paths)],
   if env.cfCallSucceeds then Except.ok () else Except.error DeployError.invalidationError)

/-- deploy.ts lines 121-144: `updateCloudfront` submits one invalidation
for `["/*"]` against `CLOUDFRONT_ID`. -/
def updateCloudfront (env : Env) : Outcome :=
  invalidateDistributionPaths env CLOUDFRONT_ID ["/*"]

/-- Mark the entry into a state-machine step. -/
def withStep (s : Step) (a : Outcome) : Outcome :=
  (Event.step s :: a.1, a.2)

/-- deploy.ts lines 18-29: `main`, the five awaited steps in order, each a
blocking precondition for the next. -/
def main (env : Env) : Outcome :=
  seqE (withStep Step.validating (prerequsites env)) fun _ =>
  seqE (withStep Step.confirming (confirmDeploy env)) fun _ =>
  seqE (withStep Step.building (build env)) fun _ =>
  seqE (withStep Step.syncing (syncS3bucket env)) fun _ =>
  seqE (withStep Step.invalidating (updateCloudfront env)) fun _ =>
  ([Event.step Step.done], Except.ok ())

/-- deploy.ts lines 13-16: the top level is `main().catch(e => { log;
console.error(e) })`.  The handler prints the error and returns normally;
it neither rethrows nor sets `process.exitCode`, so Node terminates with
exit code 0 whether or not a step failed.  Returns the full trace and the
process exit code. -/
def processRun (env : Env) : List Event × Nat :=
  match main env with
  | (evs, Except.ok _) => (evs, 0)
  | (evs, Except.error e) => (evs ++ [Event.printedError e], 0)

/-- An environment in which every external interaction succeeds. -/
def allGood : Env :=
  { AWS_PROFILE := some "my-profile"
    awsCommandExists := true
    awsVersionResult := some "aws-cli/1.18.69 Python/3.8.5"
    s3LsSucceeds := true
    confirmAnswer := true
    buildSucceeds := true
    syncSucceeds := true
    cfCallSucceeds := true
    timeMs := 1700000000000 }

example : (main allGood).2 = Except.ok () := by decide
example : (processRun allGood).2 = 0 := by decide
example : (main { allGood with AWS_PROFILE := none }).2
    = Except.error DeployError.configurationError := by decide
example : Event.exec ["npm", "run", "build"] ∈
    (main { allGood with confirmAnswer := false }).1 := by decide
example : Event.exec ["npm", "run", "build"] ∉
    (main { allGood with s3LsSucceeds := false }).1 := by decide

/-! ### Injectivity of `toISOString`

The ISO rendering is injective on the time values a JavaScript `Date` can
hold (`|t| ≤ 8.64e15` per ECMA-262), which is what makes the caller
reference a per-invocation uniqueness token. -/

/-- Total day count of the `c` consecutive years starting at year `y`. -/
def daysSpan (y : Nat) : Nat → Nat
  | 0 => 0
  | c + 1 => daysInYear y + daysSpan (y + 1) c

lemma daysInYear_ge (y : Nat) : 365 ≤ daysInYear y := by
  unfold daysInYear; split <;> omega

lemma daysSpan_ge (y c : Nat) : 365 * c ≤ daysSpan y c := by
  induction c generalizing y with
  | zero => simp [daysSpan]
  | succ c ih =>
    have h1 := ih (y + 1)
    have h2 := daysInYear_ge y
    simp only [daysSpan]
    omega

lemma padNum_length (w : Nat) : ∀ n, (padNum w n).length = w := by
  induction w with
  | zero => intro n; rfl
  | succ w ih => intro n; simp [padNum, ih]

lemma digitChar_inj : ∀ a, a < 10 → ∀ b, b < 10 → digitChar a = digitChar b → a = b := by
  decide

lemma padNum_inj (w : Nat) :
    ∀ a b, a < 10 ^ w → b < 10 ^ w → padNum w a = padNum w b → a = b := by
  induction w with
  | zero =>
    intro a b ha hb _
    simp only [pow_zero] at ha hb
    omega
  | succ w ih =>
    intro a b ha hb h
    have hpow : 10 ^ (w + 1) = 10 ^ w * 10 := by ring
    have ha' : a / 10 < 10 ^ w := by
      rw [Nat.div_lt_iff_lt_mul (by norm_num)]
      omega
    have hb' : b / 10 < 10 ^ w := by
      rw [Nat.div_lt_iff_lt_mul (by norm_num)]
      omega
    simp only [padNum] at h
    obtain ⟨h1, h2⟩ := List.append_inj h (by simp [padNum_length])
    have e1 := ih (a / 10) (b / 10) ha' hb' h1
    have e2 : a % 10 = b % 10 := by
      refine digitChar_inj _ (by omega) _ (by omega) ?_
      simpa using h2
    omega

lemma yearFrom_spec : ∀ fuel y n, n < 365 * fuel →
    (yearFrom fuel y n).2 < daysInYear (yearFrom fuel y n).1 ∧
    y ≤ (yearFrom fuel y n).1 ∧
    daysSpan y ((yearFrom fuel y n).1 - y) + (yearFrom fuel y n).2 = n := by
  intro fuel
  induction fuel with
  | zero => intro y n h; omega
  | succ fuel ih =>
    intro y n h
    simp only [yearFrom]
    split
    · next hlt => exact ⟨hlt, Nat.le_refl _, by simp [daysSpan]⟩
    · next hge =>
      push_neg at hge
      have hd := daysInYear_ge y
      have h' : n - daysInYear y < 365 * fuel := by omega
      obtain ⟨s1, s2, s3⟩ := ih (y + 1) (n - daysInYear y) h'
      refine ⟨s1, by omega, ?_⟩
      have hsplit : (yearFrom fuel (y + 1) (n - daysInYear y)).1 - y
          = ((yearFrom fuel (y + 1) (n - daysInYear y)).1 - (y + 1)) + 1 := by omega
      rw [hsplit]
      simp only [daysSpan]
      omega

lemma monthFrom_spec : ∀ (L : List Nat) n, n < L.sum →
    (L.take (monthFrom L n).1).sum + (monthFrom L n).2 = n ∧
    (monthFrom L n).1 < L.length ∧
    (monthFrom L n).2 < L.getD (monthFrom L n).1 0 := by
  intro L
  induction L with
  | nil => intro n h; simp [List.sum_nil] at h
  | cons len rest ih =>
    intro n h
    simp only [monthFrom]
    split
    · next hlt =>
      refine ⟨by simp, by simp, ?_⟩
      simpa [List.getD] using hlt
    · next hge =>
      push_neg at hge
      have h' : n - len < rest.sum := by
        simp only [List.sum_cons] at h
        omega
      obtain ⟨s1, s2, s3⟩ := ih (n - len) h'
      refine ⟨?_, by simpa using s2, by simpa [List.getD] using s3⟩
      simp only [List.take_succ_cons, List.sum_cons]
      omega

lemma monthLengths_sum (y : Nat) : (monthLengths y).sum = daysInYear y := by
  cases h : isLeapYear y <;> simp [monthLengths, daysInYear, h]

lemma monthLengths_length (y : Nat) : (monthLengths y).length = 12 := by
  cases h : isLeapYear y <;> simp [monthLengths, h]

lemma monthLengths_getD_le (y : Nat) : ∀ i, (monthLengths y).getD i 0 ≤ 31 := by
  intro i
  cases h : isLeapYear y <;>
    rcases i with _ | _ | _ | _ | _ | _ | _ | _ | _ | _ | _ | _ | i <;>
      simp [monthLengths, h, List.getD]

lemma padYear_length (y : Nat) :
    (padYear y).length = if y < 10000 then 4 else 7 := by
  unfold padYear
  split <;> simp [padNum_length]

/-- Equal renderings of the month-through-millisecond tail force equal
field values, because every field is rendered at a fixed width that its
bound keeps exact. -/
lemma isoFields_inj {a1 b1 c1 d1 e1 f1 a2 b2 c2 d2 e2 f2 : Nat}
    (ha1 : a1 < 100) (hb1 : b1 < 100) (ha2 : a2 < 100) (hb2 : b2 < 100)
    (hf1 : f1 < 1000) (hf2 : f2 < 1000)
    (h : padNum 2 a1 ++ '-' :: (padNum 2 b1 ++ 'T' :: (padNum 2 c1 ++
          ':' :: (padNum 2 d1 ++ ':' :: (padNum 2 e1 ++ '.' ::
          (padNum 3 f1 ++ ['Z'])))))
       = padNum 2 a2 ++ '-' :: (padNum 2 b2 ++ 'T' :: (padNum 2 c2 ++
          ':' :: (padNum 2 d2 ++ ':' :: (padNum 2 e2 ++ '.' ::
          (padNum 3 f2 ++ ['Z']))))))
    (hc1 : c1 < 100) (hc2 : c2 < 100) (hd1 : d1 < 100) (hd2 : d2 < 100)
    (he1 : e1 < 100) (he2 : e2 < 100) :
    a1 = a2 ∧ b1 = b2 ∧ c1 = c2 ∧ d1 = d2 ∧ e1 = e2 ∧ f1 = f2 := by
  have p2 : (10 : ℕ) ^ 2 = 100 := by norm_num
  have p3 : (10 : ℕ) ^ 3 = 1000 := by norm_num
  obtain ⟨hA, h⟩ := List.append_inj h (by simp [padNum_length])
  injection h with _ h
  obtain ⟨hB, h⟩ := List.append_inj h (by simp [padNum_length])
  injection h with _ h
  obtain ⟨hC, h⟩ := List.append_inj h (by simp [padNum_length])
  injection h with _ h
  obtain ⟨hD, h⟩ := List.append_inj h (by simp [padNum_length])
  injection h with _ h
  obtain ⟨hE, h⟩ := List.append_inj h (by simp [padNum_length])
  injection h with _ h
  obtain ⟨hF, h⟩ := List.append_inj h (by simp [padNum_length])
  exact ⟨padNum_inj 2 _ _ (by omega) (by omega) hA,
    padNum_inj 2 _ _ (by omega) (by omega) hB,
    padNum_inj 2 _ _ (by omega) (by omega) hC,
    padNum_inj 2 _ _ (by omega) (by omega) hD,
    padNum_inj 2 _ _ (by omega) (by omega) hE,
    padNum_inj 3 _ _ (by omega) (by omega) hF⟩

/-- `isoChars` is injective on the time values a JavaScript `Date` can
hold (ECMA-262 bounds them by `8.64e15` milliseconds). -/
lemma isoChars_inj (t1 t2 : Nat) (hb1 : t1 ≤ 8640000000000000)
    (hb2 : t2 ≤ 8640000000000000) (h : isoChars t1 = isoChars t2) :
    t1 = t2 := by
  have hs1 := yearFrom_spec (t1 / 86400000 / 365 + 1) 1970 (t1 / 86400000) (by omega)
  have hs2 := yearFrom_spec (t2 / 86400000 / 365 + 1) 1970 (t2 / 86400000) (by omega)
  simp only [isoChars, List.append_assoc, List.cons_append] at h
  rcases e1 : yearFrom (t1 / 86400000 / 365 + 1) 1970 (t1 / 86400000) with ⟨Y1, O1⟩
  rcases e2 : yearFrom (t2 / 86400000 / 365 + 1) 1970 (t2 / 86400000) with ⟨Y2, O2⟩
  rw [e1] at hs1 h
  rw [e2] at hs2 h
  dsimp only at hs1 hs2 h
  obtain ⟨hO1lt, hY1ge, hdays1⟩ := hs1
  obtain ⟨hO2lt, hY2ge, hdays2⟩ := hs2
  have hds1 := daysSpan_ge 1970 (Y1 - 1970)
  have hds2 := daysSpan_ge 1970 (Y2 - 1970)
  have hYb1 : Y1 < 1000000 := by omega
  have hYb2 : Y2 < 1000000 := by omega
  have hm1 := monthFrom_spec (monthLengths Y1) O1 (by rw [monthLengths_sum]; exact hO1lt)
  have hm2 := monthFrom_spec (monthLengths Y2) O2 (by rw [monthLengths_sum]; exact hO2lt)
  rcases f1 : monthFrom (monthLengths Y1) O1 with ⟨M1, D1⟩
  rcases f2 : monthFrom (monthLengths Y2) O2 with ⟨M2, D2⟩
  rw [f1] at hm1 h
  rw [f2] at hm2 h
  dsimp only at hm1 hm2 h
  obtain ⟨hsum1, hMlt1, hDlt1⟩ := hm1
  obtain ⟨hsum2, hMlt2, hDlt2⟩ := hm2
  rw [monthLengths_length] at hMlt1 hMlt2
  have hDle1 := monthLengths_getD_le Y1 M1
  have hDle2 := monthLengths_getD_le Y2 M2
  have hlen := congrArg List.length h
  simp only [List.length_append, List.length_cons, padNum_length,
    padYear_length, List.length_nil] at hlen
  by_cases hy1 : Y1 < 10000
  · by_cases hy2 : Y2 < 10000
    · rw [padYear, if_pos hy1, padYear, if_pos hy2] at h
      have p4 : (10 : ℕ) ^ 4 = 10000 := by norm_num
      obtain ⟨hYch, h⟩ := List.append_inj h (by simp [padNum_length])
      have eY : Y1 = Y2 := padNum_inj 4 _ _ (by omega) (by omega) hYch
      injection h with _ h
      obtain ⟨eA, eB, eC, eD, eE, eF⟩ :=
        isoFields_inj (by omega) (by omega) (by omega) (by omega)
          (by omega) (by omega) h (by omega) (by omega) (by omega) (by omega)
          (by omega) (by omega)
      have eM : M2 = M1 := by omega
      have eDay : D2 = D1 := by omega
      rw [← eY, eM, eDay] at hsum2
      rw [← eY] at hdays2
      omega
    · rw [if_pos hy1, if_neg hy2] at hlen; omega
  · by_cases hy2 : Y2 < 10000
    · rw [if_neg hy1, if_pos hy2] at hlen; omega
    · rw [padYear, if_neg hy1, padYear, if_neg hy2] at h
      simp only [List.cons_append] at h
      injection h with _ h
      have p6 : (10 : ℕ) ^ 6 = 1000000 := by norm_num
      obtain ⟨hYch, h⟩ := List.append_inj h (by simp [padNum_length])
      have eY : Y1 = Y2 := padNum_inj 6 _ _ (by omega) (by omega) hYch
      injection h with _ h
      obtain ⟨eA, eB, eC, eD, eE, eF⟩ :=
        isoFields_inj (by omega) (by omega) (by omega) (by omega)
          (by omega) (by omega) h (by omega) (by omega) (by omega) (by omega)
          (by omega) (by omega)
      have eM : M2 = M1 := by omega
      have eDay : D2 = D1 := by omega
      rw [← eY, eM, eDay] at hsum2
      rw [← eY] at hdays2
      omega

/-- `toISOString` is injective on the time values a JavaScript `Date` can
hold: distinct wall-clock milliseconds give distinct caller references. -/
lemma toISOString_inj (t1 t2 : Nat) (hb1 : t1 ≤ 8640000000000000)
    (hb2 : t2 ≤ 8640000000000000) (h : toISOString t1 = toISOString t2) :
    t1 = t2 := by
  have h2 := congrArg String.data h
  simp only [toISOString] at h2
  exact isoChars_inj t1 t2 hb1 hb2 h2

/-! ### Control-flow lemmas about the run -/

/-- Select the state-machine step of an event, if it is one. -/
def stepOf : Event → Option Step
  | Event.step s => some s
  | _ => none

/-- The state-machine steps observed in a trace, in order. -/
def stepsOf (evs : List Event) : List Step :=
  evs.filterMap stepOf

/-- Select the invalidation request of an event, if it is one. -/
def invalOf : Event → Option CreateInvalidationRequest
  | Event.invalidationSubmitted req => some req
  | _ => none

/-- The invalidation requests submitted during a trace, in order. -/
def submittedInvalidations (evs : List Event) : List CreateInvalidationRequest :=
  evs.filterMap invalOf

lemma seqE_error (a : Outcome) (b : Unit → Outcome) (e : DeployError)
    (h : a.2 = Except.error e) : seqE a b = (a.1, Except.error e) := by
  rcases a with ⟨evs, r⟩
  dsimp only at h
  subst h
  rfl

lemma seqE_ok (a : Outcome) (b : Unit → Outcome)
    (h : a.2 = Except.ok ()) : seqE a b = (a.1 ++ (b ()).1, (b ()).2) := by
  rcases a with ⟨evs, r⟩
  dsimp only at h
  subst h
  rfl

lemma prereqAWS_events (env : Env) :
    (prerequisiteAWS env).1 = [Event.exec ["command", "-v", "aws"]] ∨
    (prerequisiteAWS env).1 =
      [Event.exec ["command", "-v", "aws"], Event.exec ["aws", "--version"]] := by
  rcases hc : env.awsCommandExists <;>
    simp [prerequisiteAWS, util_commandExists, seqE, hc]

lemma ensureS3Access_events (env : Env) :
    (ensureS3Access env).1 = [Event.exec ["aws", "s3", "ls", BUCKET]] := by
  rcases hl : env.s3LsSucceeds <;>
    simp [ensureS3Access, util_canAccessAWSBucket, hl]

/-- Every event the prerequisite step can emit is one of its three probe
subprocesses: it spawns no build, no sync, and submits no invalidation. -/
lemma prereq_events (env : Env) :
    ∀ e ∈ (prerequsites env).1,
      e = Event.exec ["command", "-v", "aws"] ∨
      e = Event.exec ["aws", "--version"] ∨
      e = Event.exec ["aws", "s3", "ls", BUCKET] := by
  intro e he
  have hpa := prereqAWS_events env
  have hen := ensureS3Access_events env
  unfold prerequsites at he
  by_cases hv : envVarTruthy env.AWS_PROFILE = true
  · rw [if_pos hv] at he
    rcases hsp : prerequisiteAWS env with ⟨evs, r⟩
    rw [hsp] at he hpa
    dsimp only at hpa
    rcases r with err | u
    · simp only [seqE] at he
      rcases hpa with hp | hp <;> rw [hp] at he <;> simp at he <;> tauto
    · simp only [seqE] at he
      rw [hen] at he
      simp only [List.mem_append] at he
      rcases he with he | he
      · rcases hpa with hp | hp <;> rw [hp] at he <;> simp at he <;> tauto
      · simp at he
        tauto
  · rw [if_neg hv] at he
    simp at he

lemma main_prereq_error (env : Env) (err : DeployError)
    (hp : (prerequsites env).2 = Except.error err) :
    main env = (Event.step Step.validating :: (prerequsites env).1,
      Except.error err) := by
  unfold main
  rcases hsp : prerequsites env with ⟨evs, r⟩
  rw [hsp] at hp
  dsimp only at hp
  subst hp
  simp [seqE, withStep]

lemma main_build_error (env : Env)
    (hp : (prerequsites env).2 = Except.ok ()) (hb : env.buildSucceeds = false) :
    main env = (Event.step Step.validating :: (prerequsites env).1 ++
      [Event.step Step.confirming, Event.prompted,
       Event.step Step.building, Event.exec ["npm", "run", "build"]],
      Except.error DeployError.buildError) := by
  unfold main
  rcases hsp : prerequsites env with ⟨evs, r⟩
  rw [hsp] at hp
  dsimp only at hp
  subst hp
  simp [seqE, withStep, confirmDeploy, build, hb]

lemma main_sync_error (env : Env)
    (hp : (prerequsites env).2 = Except.ok ()) (hb : env.buildSucceeds = true)
    (hs : env.syncSucceeds = false) :
    main env = (Event.step Step.validating :: (prerequsites env).1 ++
      [Event.step Step.confirming, Event.prompted,
       Event.step Step.building, Event.exec ["npm", "run", "build"],
       Event.step Step.syncing, Event.exec ["aws", "s3", "sync", "public/", BUCKET]],
      Except.error DeployError.syncError) := by
  unfold main
  rcases hsp : prerequsites env with ⟨evs, r⟩
  rw [hsp] at hp
  dsimp only at hp
  subst hp
  simp [seqE, withStep, confirmDeploy, build, syncS3bucket, hb, hs]

lemma main_inval_error (env : Env)
    (hp : (prerequsites env).2 = Except.ok ()) (hb : env.buildSucceeds = true)
    (hs : env.syncSucceeds = true) (hcf : env.cfCallSucceeds = false) :
    main env = (Event.step Step.validating :: (prerequsites env).1 ++
      [Event.step Step.confirming, Event.prompted,
       Event.step Step.building, Event.exec ["npm", "run", "build"],
       Event.step Step.syncing, Event.exec ["aws", "s3", "sync", "public/", BUCKET],
       Event.step Step.invalidating,
       Event.invalidationSubmitted (builtInvalidation env CLOUDFRONT_ID ["/*"])],
      Except.error DeployError.invalidationError) := by
  unfold main
  rcases hsp : prerequsites env with ⟨evs, r⟩
  rw [hsp] at hp
  dsimp only at hp
  subst hp
  simp [seqE, withStep, confirmDeploy, build, syncS3bucket, updateCloudfront,
    invalidateDistributionPaths, hb, hs, hcf]

lemma main_ok (env : Env)
    (hp : (prerequsites env).2 = Except.ok ()) (hb : env.buildSucceeds = true)
    (hs : env.syncSucceeds = true) (hcf : env.cfCallSucceeds = true) :
    main env = (Event.step Step.validating :: (prerequsites env).1 ++
      [Event.step Step.confirming, Event.prompted,
       Event.step Step.building, Event.exec ["npm", "run", "build"],
       Event.step Step.syncing, Event.exec ["aws", "s3", "sync", "public/", BUCKET],
       Event.step Step.invalidating,
       Event.invalidationSubmitted (builtInvalidation env CLOUDFRONT_ID ["/*"]),
       Event.step Step.done],
      Except.ok ()) := by
  unfold main
  rcases hsp : prerequsites env with ⟨evs, r⟩
  rw [hsp] at hp
  dsimp only at hp
  subst hp
  simp [seqE, withStep, confirmDeploy, build, syncS3bucket, updateCloudfront,
    invalidateDistributionPaths, hb, hs, hcf]

/-- When all prerequisite conditions hold, the prerequisite step runs its
three probes in order and succeeds. -/
lemma prereq_ok (env : Env) (hv : envVarTruthy env.AWS_PROFILE = true)
    (hc : env.awsCommandExists = true) (s : String)
    (hr : env.awsVersionResult = some s) (ht : AWS_ALLOWED_VERSION_test s = true)
    (hl : env.s3LsSucceeds = true) :
    prerequsites env = ([Event.exec ["command", "-v", "aws"],
      Event.exec ["aws", "--version"], Event.exec ["aws", "s3", "ls", BUCKET]],
      Except.ok ()) := by
  simp [prerequsites, prerequisiteAWS, ensureS3Access, util_commandExists,
    util_canAccessAWSBucket, seqE, hv, hc, hr, ht, hl]

lemma prereq_no_build (env : Env) :
    Event.exec ["npm", "run", "build"] ∉ (prerequsites env).1 := by
  intro h
  rcases prereq_events env _ h with h' | h' | h' <;> simp at h'

lemma prereq_no_sync (env : Env) :
    Event.exec ["aws", "s3", "sync", "public/", BUCKET] ∉ (prerequsites env).1 := by
  intro h
  rcases prereq_events env _ h with h' | h' | h' <;> simp at h'

lemma prereq_no_inval (env : Env) (req : CreateInvalidationRequest) :
    Event.invalidationSubmitted req ∉ (prerequsites env).1 := by
  intro h
  rcases prereq_events env _ h with h' | h' | h' <;> simp at h'

/-- The prerequisite step submits no invalidation. -/
lemma submittedInvalidations_prereq (env : Env) :
    List.filterMap invalOf (prerequsites env).1 = [] := by
  rw [List.filterMap_eq_nil_iff]
  intro e he
  rcases prereq_events env e he with h | h | h <;> subst h <;> rfl

/-- Every invalidation request a run's trace can contain is the single
request built by `updateCloudfront`. -/
lemma inval_submitted_eq (env : Env) (req : CreateInvalidationRequest)
    (h : Event.invalidationSubmitted req ∈ (main env).1) :
    req = builtInvalidation env CLOUDFRONT_ID ["/*"] := by
  rcases hp : (prerequsites env).2 with err | u
  · rw [main_prereq_error env err hp] at h
    rcases List.mem_cons.mp h with h' | h'
    · simp at h'
    · exact absurd h' (prereq_no_inval env req)
  · cases u
    rcases hb : env.buildSucceeds
    · rw [main_build_error env hp hb] at h
      simp at h
      exact absurd h (prereq_no_inval env req)
    · rcases hs : env.syncSucceeds
      · rw [main_sync_error env hp hb hs] at h
        simp at h
        exact absurd h (prereq_no_inval env req)
      · rcases hcf : env.cfCallSucceeds
        · rw [main_inval_error env hp hb hs hcf] at h
          simp at h
          rcases h with h | h
          · exact absurd h (prereq_no_inval env req)
          · exact h
        · rw [main_ok env hp hb hs hcf] at h
          simp at h
          rcases h with h | h
          · exact absurd h (prereq_no_inval env req)
          · exact h

/-! ### The claims -/

/-- C1 (counterexample): the claim says a non-affirmative confirmation
response aborts the workflow with no build; but in the run where the human
answers `false` and everything else succeeds, the build subprocess is
spawned and the run completes successfully. -/
theorem claim_C1_counterexample :
    Event.exec ["npm", "run", "build"] ∈
      (main { allGood with confirmAnswer := false }).1 ∧
    Event.exec ["aws", "s3", "sync", "public/", BUCKET] ∈
      (main { allGood with confirmAnswer := false }).1 ∧
    (main { allGood with confirmAnswer := false }).2 = Except.ok () := by
  refine ⟨by decide, by decide, by decide⟩

/-- C1 (amended): `confirmDeploy` awaits the prompt but never reads the
answer, so the run — its result and its whole event trace — is identical
whatever the human answers; the only way to abort at the prompt is to
interrupt the process. -/
theorem claim_C1_amended (env : Env) (b : Bool) :
    main { env with confirmAnswer := b } = main env := rfl

/-- C2 (counterexample): the claim says the process exits non-zero when a
step fails; but in the run where `AWS_PROFILE` is unset the prerequisite
step fails and the process still exits 0, because the top-level catch
handler only prints the error and never sets a non-zero exit code. -/
theorem claim_C2_counterexample :
    (main { allGood with AWS_PROFILE := none }).2
      = Except.error DeployError.configurationError ∧
    (processRun { allGood with AWS_PROFILE := none }).2 = 0 := by
  refine ⟨by decide, by decide⟩

/-- C2 (amended): the process exits 0 when all steps succeed, and it
*also* exits 0 when a step fails: the failing step's error reaches the
top-level catch handler, which prints it to the console but neither
rethrows nor sets `process.exitCode`. -/
theorem claim_C2_amended (env : Env) :
    (processRun env).2 = 0 ∧
    ∀ e, (main env).2 = Except.error e →
      Event.printedError e ∈ (processRun env).1 := by
  rcases hm : main env with ⟨evs, r⟩
  unfold processRun
  rw [hm]
  rcases r with e' | u
  · refine ⟨rfl, fun e he => ?_⟩
    dsimp only at he
    injection he with he'
    subst he'
    simp
  · refine ⟨rfl, fun e he => ?_⟩
    dsimp only at he
    exact Except.noConfusion he

/-- C2 (amended, witness): in the concrete run where the build fails, the
process exits 0 and the build error is printed. -/
theorem claim_C2_amended_witness :
    (processRun { allGood with buildSucceeds := false }).2 = 0 ∧
    Event.printedError DeployError.buildError ∈
      (processRun { allGood with buildSucceeds := false }).1 :=
  ⟨(claim_C2_amended _).1,
   (claim_C2_amended _).2 DeployError.buildError (by decide)⟩

/-- C3: whenever the prerequisite step fails — env var unset, tool
missing, wrong tool version, or no bucket access — the run propagates that
very error and the trace contains no build subprocess, no sync subprocess
and no invalidation submission; in particular, with `AWS_PROFILE` falsy
the error is the configuration error and no subprocess at all is spawned. -/
theorem claim_C3 (env : Env) :
    (∀ err, (prerequsites env).2 = Except.error err →
      (main env).2 = Except.error err ∧
      Event.exec ["npm", "run", "build"] ∉ (main env).1 ∧
      Event.exec ["aws", "s3", "sync", "public/", BUCKET] ∉ (main env).1 ∧
      ∀ req, Event.invalidationSubmitted req ∉ (main env).1) ∧
    (envVarTruthy env.AWS_PROFILE = false →
      (main env).2 = Except.error DeployError.configurationError ∧
      (main env).1 = [Event.step Step.validating]) := by
  constructor
  · intro err hp
    rw [main_prereq_error env err hp]
    refine ⟨rfl, ?_, ?_, ?_⟩
    · intro h
      rcases List.mem_cons.mp h with h' | h'
      · simp at h'
      · exact prereq_no_build env h'
    · intro h
      rcases List.mem_cons.mp h with h' | h'
      · simp at h'
      · exact prereq_no_sync env h'
    · intro req h
      rcases List.mem_cons.mp h with h' | h'
      · simp at h'
      · exact prereq_no_inval env req h'
  · intro hv
    have hp : prerequsites env = ([], Except.error DeployError.configurationError) := by
      simp [prerequsites, hv]
    have h2 : (prerequsites env).2 = Except.error DeployError.configurationError := by
      rw [hp]
    have h3 := main_prereq_error env _ h2
    rw [hp] at h3
    rw [h3]
    exact ⟨rfl, rfl⟩

/-- C3 (witness): the concrete run with `AWS_PROFILE` unset fails with the
configuration error and spawns nothing. -/
theorem claim_C3_witness :
    (main { allGood with AWS_PROFILE := none }).2
      = Except.error DeployError.configurationError ∧
    (main { allGood with AWS_PROFILE := none }).1 = [Event.step Step.validating] :=
  (claim_C3 { allGood with AWS_PROFILE := none }).2 (by decide)

/-- C4: if the build subprocess exits non-zero the run cannot succeed and
neither the sync subprocess nor any invalidation submission appears in the
trace; if the sync subprocess exits non-zero the run cannot succeed and no
invalidation submission appears. -/
theorem claim_C4 (env : Env) :
    (env.buildSucceeds = false →
      (main env).2 ≠ Except.ok () ∧
      Event.exec ["aws", "s3", "sync", "public/", BUCKET] ∉ (main env).1 ∧
      ∀ req, Event.invalidationSubmitted req ∉ (main env).1) ∧
    (env.syncSucceeds = false →
      (main env).2 ≠ Except.ok () ∧
      ∀ req, Event.invalidationSubmitted req ∉ (main env).1) := by
  constructor
  · intro hb
    rcases hp : (prerequsites env).2 with err | u
    · rw [main_prereq_error env err hp]
      refine ⟨by simp, ?_, ?_⟩
      · intro h
        rcases List.mem_cons.mp h with h' | h'
        · simp at h'
        · exact prereq_no_sync env h'
      · intro req h
        rcases List.mem_cons.mp h with h' | h'
        · simp at h'
        · exact prereq_no_inval env req h'
    · cases u
      rw [main_build_error env hp hb]
      refine ⟨by simp, ?_, ?_⟩
      · intro h
        simp at h
        exact prereq_no_sync env h
      · intro req h
        simp at h
        exact prereq_no_inval env req h
  · intro hs
    rcases hp : (prerequsites env).2 with err | u
    · rw [main_prereq_error env err hp]
      refine ⟨by simp, ?_⟩
      intro req h
      rcases List.mem_cons.mp h with h' | h'
      · simp at h'
      · exact prereq_no_inval env req h'
    · cases u
      rcases hb : env.buildSucceeds
      · rw [main_build_error env hp hb]
        refine ⟨by simp, ?_⟩
        intro req h
        simp at h
        exact prereq_no_inval env req h
      · rw [main_sync_error env hp hb hs]
        refine ⟨by simp, ?_⟩
        intro req h
        simp at h
        exact prereq_no_inval env req h

/-- C4 (witness): with a failing build no sync is spawned; with a failing
sync nothing is submitted to CloudFront. -/
theorem claim_C4_witness :
    Event.exec ["aws", "s3", "sync", "public/", BUCKET] ∉
      (main { allGood with buildSucceeds := false }).1 ∧
    ∀ req, Event.invalidationSubmitted req ∉
      (main { allGood with syncSucceeds := false }).1 :=
  ⟨((claim_C4 { allGood with buildSucceeds := false }).1 rfl).2.1,
   fun req => ((claim_C4 { allGood with syncSucceeds := false }).2 rfl).2 req⟩

/-- C5: when the env var is set, the tool is present at an accepted
version, the access probe succeeds, the confirmation is affirmative, and
build, sync and the invalidation call all succeed, the process exits 0 and
the state-machine steps appear in the trace exactly in the order
Validating, Confirming, Building, Syncing, Invalidating, Done. -/
theorem claim_C5 (env : Env)
    (hv : envVarTruthy env.AWS_PROFILE = true)
    (hc : env.awsCommandExists = true)
    (s : String) (hr : env.awsVersionResult = some s)
    (ht : AWS_ALLOWED_VERSION_test s = true)
    (hl : env.s3LsSucceeds = true)
    (_hconfirm : env.confirmAnswer = true)
    (hb : env.buildSucceeds = true) (hs : env.syncSucceeds = true)
    (hcf : env.cfCallSucceeds = true) :
    (processRun env).2 = 0 ∧
    stepsOf (processRun env).1 =
      [Step.validating, Step.confirming, Step.building, Step.syncing,
       Step.invalidating, Step.done] := by
  have hp := prereq_ok env hv hc s hr ht hl
  have hm := main_ok env (by rw [hp]) hb hs hcf
  rw [hp] at hm
  unfold processRun
  rw [hm]
  refine ⟨rfl, ?_⟩
  simp [stepsOf, stepOf]

/-- C5 (witness): the all-success run exits 0 with the six steps in
order. -/
theorem claim_C5_witness :
    (processRun allGood).2 = 0 ∧
    stepsOf (processRun allGood).1 =
      [Step.validating, Step.confirming, Step.building, Step.syncing,
       Step.invalidating, Step.done] :=
  claim_C5 allGood (by decide) rfl "aws-cli/1.18.69 Python/3.8.5" rfl
    (by decide) rfl rfl rfl rfl rfl

/-- C6: any two invalidation requests submitted by runs whose wall clocks
(millisecond time values within the range a JavaScript `Date` can hold)
differ carry distinct caller references, because the caller reference is
the ISO rendering of the clock and that rendering is injective. -/
theorem claim_C6 (env1 env2 : Env) (req1 req2 : CreateInvalidationRequest)
    (h1 : Event.invalidationSubmitted req1 ∈ (main env1).1)
    (h2 : Event.invalidationSubmitted req2 ∈ (main env2).1)
    (hb1 : env1.timeMs ≤ 8640000000000000) (hb2 : env2.timeMs ≤ 8640000000000000)
    (ht : env1.timeMs ≠ env2.timeMs) :
    req1.InvalidationBatch.CallerReference ≠
      req2.InvalidationBatch.CallerReference := by
  rw [inval_submitted_eq env1 req1 h1, inval_submitted_eq env2 req2 h2]
  intro hEq
  exact ht (toISOString_inj _ _ hb1 hb2 (by simpa [builtInvalidation] using hEq))

/-- C6 (witness): the requests of two concrete runs one millisecond-epoch
apart carry distinct caller references. -/
theorem claim_C6_witness :
    (builtInvalidation allGood CLOUDFRONT_ID ["/*"]).InvalidationBatch.CallerReference ≠
    (builtInvalidation { allGood with timeMs := 0 }
      CLOUDFRONT_ID ["/*"]).InvalidationBatch.CallerReference :=
  claim_C6 allGood { allGood with timeMs := 0 } _ _ (by decide) (by decide)
    (by decide) (by decide) (by decide)

/-- C7: the access probe returns a boolean that is exactly the underlying
`aws s3 ls` outcome — a failed probe becomes `false` rather than an
error — and a `false` probe makes the prerequisite step fail with the
access error; every other step's failure propagates uncaught as its own
error to the top of the run. -/
theorem claim_C7 (env : Env) :
    (util_canAccessAWSBucket env).2 = env.s3LsSucceeds ∧
    (∀ s, env.s3LsSucceeds = false →
      envVarTruthy env.AWS_PROFILE = true →
      env.awsCommandExists = true →
      env.awsVersionResult = some s →
      AWS_ALLOWED_VERSION_test s = true →
      (prerequsites env).2 = Except.error DeployError.accessError) ∧
    ((prerequsites env).2 = Except.ok () → env.buildSucceeds = false →
      (main env).2 = Except.error DeployError.buildError) ∧
    ((prerequsites env).2 = Except.ok () → env.buildSucceeds = true →
      env.syncSucceeds = false →
      (main env).2 = Except.error DeployError.syncError) ∧
    ((prerequsites env).2 = Except.ok () → env.buildSucceeds = true →
      env.syncSucceeds = true → env.cfCallSucceeds = false →
      (main env).2 = Except.error DeployError.invalidationError) := by
  refine ⟨rfl, ?_, ?_, ?_, ?_⟩
  · intro s hl hv hc hr ht
    simp [prerequsites, prerequisiteAWS, ensureS3Access, util_commandExists,
      util_canAccessAWSBucket, seqE, hv, hc, hr, ht, hl]
  · intro hp hb
    rw [main_build_error env hp hb]
  · intro hp hb hs
    rw [main_sync_error env hp hb hs]
  · intro hp hb hs hcf
    rw [main_inval_error env hp hb hs hcf]

/-- C7 (witness): the concrete run with a failing `aws s3 ls` probe fails
the prerequisite step with the access error. -/
theorem claim_C7_witness :
    (util_canAccessAWSBucket { allGood with s3LsSucceeds := false }).2
      = { allGood with s3LsSucceeds := false }.s3LsSucceeds ∧
    (prerequsites { allGood with s3LsSucceeds := false }).2
      = Except.error DeployError.accessError :=
  ⟨(claim_C7 _).1,
   (claim_C7 { allGood with s3LsSucceeds := false }).2.1
     "aws-cli/1.18.69 Python/3.8.5" rfl (by decide) rfl rfl (by decide)⟩

/-- C8: the tooling check fails with the missing-tool error when
`command -v aws` fails, fails with the incompatible-version error when the
reported version does not start with `aws-cli/1` (both are the spec's
`ToolingError`), and succeeds exactly when the tool is invokable and its
reported version matches `/^aws-cli\/1/`. -/
theorem claim_C8 (env : Env) :
    (env.awsCommandExists = false →
      (prerequisiteAWS env).2 = Except.error DeployError.toolMissing) ∧
    (∀ s, env.awsCommandExists = true → env.awsVersionResult = some s →
      AWS_ALLOWED_VERSION_test s = false →
      (prerequisiteAWS env).2 = Except.error (DeployError.incompatibleVersion s)) ∧
    ((prerequisiteAWS env).2 = Except.ok () ↔
      env.awsCommandExists = true ∧
      ∃ s, env.awsVersionResult = some s ∧ AWS_ALLOWED_VERSION_test s = true) := by
  refine ⟨?_, ?_, ?_⟩
  · intro hc
    simp [prerequisiteAWS, util_commandExists, seqE, hc]
  · intro s hc hr ht
    simp [prerequisiteAWS, util_commandExists, seqE, hc, hr, ht]
  · rcases hc : env.awsCommandExists
    · simp [prerequisiteAWS, util_commandExists, seqE, hc]
    · rcases hr : env.awsVersionResult with _ | s
      · simp [prerequisiteAWS, util_commandExists, seqE, hc, hr]
      · by_cases ht : AWS_ALLOWED_VERSION_test s = true
        · simp [prerequisiteAWS, util_commandExists, seqE, hc, hr, ht]
        · rw [Bool.not_eq_true] at ht
          simp [prerequisiteAWS, util_commandExists, seqE, hc, hr, ht]

/-- C8 (witness): a missing tool and an `aws-cli/2` version string each
fail the tooling check with the corresponding error. -/
theorem claim_C8_witness :
    (prerequisiteAWS { allGood with awsCommandExists := false }).2
      = Except.error DeployError.toolMissing ∧
    (prerequisiteAWS { allGood with awsVersionResult := some "aws-cli/2.13.0" }).2
      = Except.error (DeployError.incompatibleVersion "aws-cli/2.13.0") :=
  ⟨(claim_C8 { allGood with awsCommandExists := false }).1 rfl,
   (claim_C8 { allGood with awsVersionResult := some "aws-cli/2.13.0" }).2.1
     "aws-cli/2.13.0" rfl rfl (by decide)⟩

/-- C9: a run that reaches the invalidation step submits exactly one
invalidation request; its path list is exactly `["/*"]`, its `Quantity` is
the length of that path list, and it targets the configured CloudFront
distribution. -/
theorem claim_C9 (env : Env)
    (hp : (prerequsites env).2 = Except.ok ())
    (hb : env.buildSucceeds = true) (hs : env.syncSucceeds = true) :
    submittedInvalidations (main env).1
      = [builtInvalidation env CLOUDFRONT_ID ["/*"]] ∧
    (builtInvalidation env CLOUDFRONT_ID ["/*"]).DistributionId = CLOUDFRONT_ID ∧
    (builtInvalidation env CLOUDFRONT_ID ["/*"]).InvalidationBatch.Paths.Items
      = ["/*"] ∧
    (builtInvalidation env CLOUDFRONT_ID ["/*"]).InvalidationBatch.Paths.Quantity
      = (builtInvalidation env CLOUDFRONT_ID
          ["/*"]).InvalidationBatch.Paths.Items.length := by
  refine ⟨?_, rfl, rfl, rfl⟩
  rcases hcf : env.cfCallSucceeds
  · rw [main_inval_error env hp hb hs hcf]
    simp [submittedInvalidations, List.filterMap_cons, List.filterMap_append,
      submittedInvalidations_prereq, invalOf]
  · rw [main_ok env hp hb hs hcf]
    simp [submittedInvalidations, List.filterMap_cons, List.filterMap_append,
      submittedInvalidations_prereq, invalOf]

/-- C9 (witness): the all-success run submits exactly the one request for
`["/*"]` against the configured distribution. -/
theorem claim_C9_witness :
    submittedInvalidations (main allGood).1
      = [builtInvalidation allGood CLOUDFRONT_ID ["/*"]] ∧
    (builtInvalidation allGood CLOUDFRONT_ID ["/*"]).DistributionId = CLOUDFRONT_ID ∧
    (builtInvalidation allGood CLOUDFRONT_ID ["/*"]).InvalidationBatch.Paths.Items
      = ["/*"] ∧
    (builtInvalidation allGood CLOUDFRONT_ID ["/*"]).InvalidationBatch.Paths.Quantity
      = (builtInvalidation allGood CLOUDFRONT_ID
          ["/*"]).InvalidationBatch.Paths.Items.length :=
  claim_C9 allGood (by decide) rfl rfl

/-- C10: an `AWS_PROFILE` that is present but empty behaves exactly like an
absent one — JavaScript's truthiness test rejects both — so the
prerequisite step fails with the same configuration error, with an empty
event list (no check or subprocess runs first), and the whole run spawns
nothing. -/
theorem claim_C10 (env : Env) :
    prerequsites { env with AWS_PROFILE := some "" }
      = prerequsites { env with AWS_PROFILE := none } ∧
    (prerequsites { env with AWS_PROFILE := some "" }).2
      = Except.error DeployError.configurationError ∧
    (prerequsites { env with AWS_PROFILE := some "" }).1 = [] ∧
    (main { env with AWS_PROFILE := some "" }).1 = [Event.step Step.validating] := by
  have h1 : prerequsites { env with AWS_PROFILE := some "" }
      = ([], Except.error DeployError.configurationError) := by
    simp [prerequsites, envVarTruthy]
  have h2 : prerequsites { env with AWS_PROFILE := none }
      = ([], Except.error DeployError.configurationError) := by
    simp [prerequsites, envVarTruthy]
  have h3 := main_prereq_error { env with AWS_PROFILE := some "" } _ (by rw [h1])
  rw [h1] at h3
  exact ⟨h1.trans h2.symm, by rw [h1], by rw [h1], by rw [h3]⟩

end Deploy
